import Mathlib

/-!
Verification development for the request lifecycle and failover engine of the
werkingflow bridge: a shallow embedding of `ClaudeCodeCLI.run_completion`
(src/claude_cli.py) and of the fallback orchestrator (src/providers/fallback.py),
with theorems settling the specification claims about them.
-/

namespace WFB

/-! ## Python string primitives -/

/-- Test whether the first character list is a prefix of the second. -/
def listIsPre : List Char → List Char → Bool
  | [], _ => true
  | _ :: _, [] => false
  | a :: n, b :: h => a == b && listIsPre n h

/-- Test whether the first character list occurs contiguously in the second. -/
def listOccurs : List Char → List Char → Bool
  | n, [] => n.isEmpty
  | n, b :: t => listIsPre n (b :: t) || listOccurs n t

/-- Python substring test: `needle in hay`. -/
def pyIn (needle hay : String) : Bool :=
  listOccurs needle.data hay.data

/-- Lowercase one character (ASCII range, which covers every text the scans
compare). -/
def lowerChar (c : Char) : Char :=
  if 65 ≤ c.toNat ∧ c.toNat ≤ 90 then Char.ofNat (c.toNat + 32) else c

/-- Python `str.lower()`. -/
def pyLower (s : String) : String :=
  ⟨s.data.map lowerChar⟩

/-! ## The chunk model

A raw chunk of the backend stream, abstracted to exactly the members
`run_completion` inspects.  The claude_code_sdk message classes
(`AssistantMessage`, `SystemMessage`, `ResultMessage`, ...) are plain Python
dataclasses, so an object-style chunk carries a `__dict__` of its public
attributes; a chunk may also arrive as a plain dict (the historical format). -/

/-- Content block of an assistant chunk: `text` is the value of the `text`
attribute when the block has one (`some ""` is falsy in Python). -/
structure Block where
  text : Option String
  deriving DecidableEq

/-- Python runtime style of a chunk: an instance of a named message class, or a
plain dict. -/
inductive PyStyle
  | object (typeName : String)
  | pdict
  deriving DecidableEq

/-- Raw chunk: its Python style, its `type` and `subtype` entries when present
(dict key, or object attribute carried over by the dict conversion), and its
`content` entry when present. -/
structure Msg where
  style : PyStyle
  typeField : Option String
  subtypeField : Option String
  content : Option (List Block)
  deriving DecidableEq

/-- Value of `type(message).__name__`. -/
def Msg.pyTypeName (m : Msg) : String :=
  match m.style with
  | .object n => n
  | .pdict => "dict"

/-- Lines 893-909 of claude_cli.py: a non-dict object carrying `__dict__` is
replaced by a plain dict of its public non-callable attributes (the members the
model tracks carry over); a dict is left as it is. -/
def toDictStyle (m : Msg) : Msg :=
  { m with style := .pdict }

/-- Lines 986-995: the case-insensitive rate-limit phrase set. -/
def rate_limit_patterns : List String :=
  ["hit your limit",
   "you\u0027ve hit your limit",
   "rate limit",
   "usage limit",
   "quota exceeded",
   "too many requests",
   "capacity",
   "try again later"]

/-- Lines 983-996 applied to one block: the block must have a truthy `text`
attribute, then the lowercase substring scan over `rate_limit_patterns` runs. -/
def blockHitsRateLimit (b : Block) : Bool :=
  match b.text with
  | some t => t != "" && rate_limit_patterns.any (fun p => pyIn p (pyLower t))
  | none => false

/-- Lines 980-996: the early rate-limit gate, evaluated on the message as the
loop holds it at that point (that is, after the dict conversion): the Python
type name must be `AssistantMessage`, the message must have a truthy `content`
attribute, and some block must contain a rate-limit phrase. -/
def msgHitsRateLimit (m : Msg) : Bool :=
  m.pyTypeName == "AssistantMessage" &&
    (match m.content with
     | some bs => !bs.isEmpty && bs.any blockHitsRateLimit
     | none => false)

/-- Text of the first block that triggered the gate, truncated to 200
characters (line 997, `block.text[:200]`). -/
def firstRateLimitText (m : Msg) : String :=
  match m.content with
  | some bs =>
    match bs.find? blockHitsRateLimit with
    | some b => (b.text.getD "").take 200
    | none => ""
  | none => ""

/-- Lines 932-946: the completion marker check on the (converted) message:
the `type` entry equal to `result` with subtype `complete`, `success`, or
`error_max_turns` — each of these sets `response_complete = True`. -/
def isResultComplete (m : Msg) : Bool :=
  m.typeField == some "result" &&
    (m.subtypeField == some "complete" || m.subtypeField == some "success" ||
     m.subtypeField == some "error_max_turns")

/-! ## The crash-recovery cache -/

/-- One line of the on-disk cache file: a JSON-decodable chunk, or a torn
(undecodable) line left by an interrupted write. -/
inductive CacheLine
  | valid (m : Msg)
  | corrupt
  deriving DecidableEq

/-- Outcome of one attempted cache append (lines 922-930): the write succeeds,
fails leaving nothing behind, or fails leaving a torn line behind. -/
inductive WriteOutcome
  | ok
  | failLost
  | failTorn
  deriving DecidableEq

/-- One raw chunk as consumed by the loop: the chunk, the byte length of its
JSON encoding plus newline (the utf-8 byte count of `chunk_json`),
and how the cache write would go for it. -/
structure MsgIn where
  msg : Msg
  size : Nat
  write : WriteOutcome
  deriving DecidableEq

structure CacheState where
  enabled : Bool
  bytes : Nat
  lines : List CacheLine
  deriving DecidableEq

def initCache : CacheState := ⟨true, 0, []⟩

/-- Lines 911-930: append the converted chunk to the cache file.  Disabled
caches are skipped; exceeding the byte budget disables the cache without
writing the chunk; a write failure disables the cache (any exception is caught
and only logged). -/
def cacheAppend (maxBytes : Nat) (c : CacheState) (mi : MsgIn) (converted : Msg) :
    CacheState :=
  if !c.enabled then c
  else if c.bytes + mi.size > maxBytes then { c with enabled := false }
  else
    match mi.write with
    | .ok => { c with bytes := c.bytes + mi.size, lines := c.lines ++ [.valid converted] }
    | .failLost => { c with enabled := false }
    | .failTorn => { c with enabled := false, lines := c.lines ++ [.corrupt] }

/-- Lines 186-187 of `__init__`: `self.max_cache_size_mb = 10`. -/
def max_cache_size_mb : Nat := 10

/-- Line 814: `max_cache_bytes = self.max_cache_size_mb * 1024 * 1024`. -/
def max_cache_bytes : Nat := max_cache_size_mb * 1024 * 1024

/-! ## The invocation registry

The module `src.cli_session_manager` that `run_completion` imports is not among
the repository files; only its call sites are. -/

inductive SessStatus
  | completed
  | failed
  | cancelled
  deriving DecidableEq

/-- Modelled from the spec: `cli_session_manager.complete_session` performs the
idempotent terminal transition of section 4.2 of the specification — the first
terminal status is retained, a second call is ignored. -/
def completeSession (cur : Option SessStatus) (new : SessStatus) : Option SessStatus :=
  match cur with
  | some s => some s
  | none => some new

/-! ## The streaming loop -/

structure LoopState where
  chunksReceived : Nat
  cache : CacheState
  responseComplete : Bool
  yielded : List Msg
  rateLimitMarked : Bool
  sessionStatus : Option SessStatus
  deriving DecidableEq

def initLoop : LoopState :=
  ⟨0, initCache, false, [], false, none⟩

/-- One iteration of the streaming loop (lines 852-1028), in source order:
count the chunk, convert an object to a dict, append to the cache, detect the
completion marker, run the early rate-limit gate (on a hit: mark the worker
rate limited, mark the session failed, raise `WorkerUnavailableError` without
yielding — the `.error` result, carrying the raised message and the state at
the raise), skip a `SystemMessage`, otherwise yield the chunk.  Cancellation,
progress tracking and the text accumulator are side channels no claim touches
and are not modelled. -/
def stepMsg (maxBytes : Nat) (s : LoopState) (mi : MsgIn) :
    Except (String × LoopState) LoopState :=
  let s := { s with chunksReceived := s.chunksReceived + 1 }
  let m := toDictStyle mi.msg
  let s := { s with cache := cacheAppend maxBytes s.cache mi m }
  let s := if isResultComplete m then { s with responseComplete := true } else s
  if msgHitsRateLimit m then
    let s := { s with
      rateLimitMarked := true,
      sessionStatus := completeSession s.sessionStatus .failed }
    .error ("Rate limit detected: " ++ firstRateLimitText m, s)
  else if m.pyTypeName == "SystemMessage" then
    .ok s
  else
    .ok { s with yielded := s.yielded ++ [m] }

def runLoop (maxBytes : Nat) : LoopState → List MsgIn → Except (String × LoopState) LoopState
  | s, [] => .ok s
  | s, mi :: rest =>
    match stepMsg maxBytes s mi with
    | .error e => .error e
    | .ok s => runLoop maxBytes s rest

/-! ## Stream termination and caller-visible output -/

/-- How the backend stream ends after the listed chunks were consumed: it is
exhausted normally, the overall timeout fires, or the SDK raises a generic
exception whose message is `emsg`. -/
inductive StreamEnd
  | normal
  | timeout
  | crash (emsg : String)
  deriving DecidableEq

/-- One chunk as the caller receives it: a forwarded backend chunk, or one of
the synthesized diagnostic chunks of claude_cli.py. -/
inductive OutChunk
  | msg (m : Msg)
  | timeoutIncomplete
  | noCompletionMarker (chunksReceived : Nat)
  | incompleteAfterCrash (recovered : Nat) (originalError : String)
  | errorDuringExecution (originalError : String)
  | metadata
  deriving DecidableEq

/-- How the generator terminates towards the layer above. -/
inductive Outcome
  | ok
  | workerUnavailable (emsg : String)
  | timeoutRaised
  deriving DecidableEq

/-- Lines 1335-1340: the signatures that classify an exception as
worker-unavailable. -/
def worker_unavailable_signatures : List String :=
  ["credit balance", "balance is too low", "rate limit",
   "authentication failed", "unauthorized", "invalid token",
   "oauth token", "token expired", "401",
   "invalid api key", "exit code 1"]

/-- Line 1335: `any(x in error_str for x in [...])` over the lowercased
exception message. -/
def matchesWorkerUnavailable (emsg : String) : Bool :=
  worker_unavailable_signatures.any (fun x => pyIn x (pyLower emsg))

/-- Lines 1366-1381: line-by-line decode of the cache file; corrupt lines are
skipped and only logged. -/
def replayChunks (lines : List CacheLine) : List Msg :=
  lines.filterMap (fun l =>
    match l with
    | .valid m => some m
    | .corrupt => none)

/-- Line 1375: completion marker check among recovered chunks (`complete` or
`success` only). -/
def replayHasCompletion (lines : List CacheLine) : Bool :=
  (replayChunks lines).any (fun c =>
    c.typeField == some "result" &&
      (c.subtypeField == some "complete" || c.subtypeField == some "success"))

/-- Lines 1358-1426: what the `except Exception` recovery body yields, as a
function of the cache file it finds at that moment (`none` = no file).  A
nonempty file is replayed; an `incomplete_after_crash` diagnostic follows when
no completion marker was recovered; an empty or unreadable cache yields one
generic error chunk carrying the original message. -/
def recoveryYields (cacheAtHandler : Option (List CacheLine)) (emsg : String) :
    List OutChunk :=
  match cacheAtHandler with
  | some lines =>
    if !lines.isEmpty then
      let chunks := replayChunks lines
      if !replayHasCompletion lines && chunks.length > 0 then
        chunks.map OutChunk.msg ++ [.incompleteAfterCrash chunks.length emsg]
      else if chunks.length == 0 then
        [.errorDuringExecution emsg]
      else
        chunks.map OutChunk.msg
    else
      [.errorDuringExecution emsg]
  | none => [.errorDuringExecution emsg]

/-- Lines 1328-1429: the `except Exception` handler.  A message matching a
worker-unavailable signature marks the session failed and re-raises as
`WorkerUnavailableError` (note: whether chunks were already forwarded is not
consulted); otherwise the recovery body runs and the session is marked
failed. -/
def crashHandler (cacheAtHandler : Option (List CacheLine)) (st : LoopState)
    (emsg : String) : List OutChunk × Outcome × Option SessStatus :=
  if matchesWorkerUnavailable emsg then
    ([], .workerUnavailable ("Claude SDK failed: " ++ emsg),
     completeSession st.sessionStatus .failed)
  else
    (recoveryYields cacheAtHandler emsg, .ok,
     completeSession st.sessionStatus .failed)

/-- Lines 1291-1297, inside the `finally` of line 1250: the cache file is
unlinked if it exists, so no cache file survives the unwinding of the inner
`try` statement. -/
def finallyCleanup (_cacheFile : Option (List CacheLine)) : Option (List CacheLine) :=
  none

/-- Caller-visible result of one invocation. -/
structure RunResult where
  yielded : List OutChunk
  outcome : Outcome
  status : Option SessStatus
  cacheWritten : List CacheLine
  cacheAtEnd : Option (List CacheLine)
  rateLimitMarked : Bool
  deriving DecidableEq

/-- Embedding of the streaming core of `ClaudeCodeCLI.run_completion`
(lines 850-1429 of claude_cli.py) for one invocation that consumes `msgs` and
then ends as `term` says.  The nesting in the source is: the inner `try` of
line 850 catches only the timeout (yield `timeout_incomplete`, delete the
cache, re-raise); every exception then unwinds through the `finally` of line
1250 — which deletes the cache file — before reaching the handlers of the
outer `try` of line 555: the timeout handler (line 1311, mark failed,
re-raise) or the generic `except Exception` (line 1328).  On a normal end the
post-streaming checks of lines 1055-1089 run, then the `finally`, then the
session is marked completed (line 1308). -/
def run_completion (enableFileDiscovery : Bool) (maxBytes : Nat)
    (msgs : List MsgIn) (term : StreamEnd) : RunResult :=
  match runLoop maxBytes initLoop msgs with
  | .error (emsg, st) =>
    let cacheAfterFinally := finallyCleanup (some st.cache.lines)
    let r := crashHandler cacheAfterFinally st emsg
    { yielded := st.yielded.map OutChunk.msg ++ r.1
      outcome := r.2.1
      status := r.2.2
      cacheWritten := st.cache.lines
      cacheAtEnd := cacheAfterFinally
      rateLimitMarked := st.rateLimitMarked }
  | .ok st =>
    match term with
    | .normal =>
      let diag :=
        if !st.responseComplete && st.chunksReceived != 0 then
          [OutChunk.noCompletionMarker st.chunksReceived]
        else []
      let fd := if enableFileDiscovery then [OutChunk.metadata] else []
      { yielded := st.yielded.map OutChunk.msg ++ diag ++ fd
        outcome := .ok
        status := completeSession st.sessionStatus .completed
        cacheWritten := st.cache.lines
        cacheAtEnd := finallyCleanup (some st.cache.lines)
        rateLimitMarked := st.rateLimitMarked }
    | .timeout =>
      { yielded := st.yielded.map OutChunk.msg ++ [OutChunk.timeoutIncomplete]
        outcome := .timeoutRaised
        status := completeSession st.sessionStatus .failed
        cacheWritten := st.cache.lines
        cacheAtEnd := none
        rateLimitMarked := st.rateLimitMarked }
    | .crash emsg =>
      let cacheAfterFinally := finallyCleanup (some st.cache.lines)
      let r := crashHandler cacheAfterFinally st emsg
      { yielded := st.yielded.map OutChunk.msg ++ r.1
        outcome := r.2.1
        status := r.2.2
        cacheWritten := st.cache.lines
        cacheAtEnd := cacheAfterFinally
        rateLimitMarked := st.rateLimitMarked }

/-! ## The fallback orchestrator (src/providers/fallback.py) -/

/-- Exception raised by one provider attempt, by Python class:
`ProviderError` (a `RuntimeError` subclass carrying the HTTP status code and
the upstream text), the httpx connection errors, a plain `RuntimeError`, or
any other exception. -/
inductive FbError
  | providerError (status_code : Nat) (message : String)
  | connectError (message : String)
  | connectTimeout (message : String)
  | readTimeout (message : String)
  | runtimeError (message : String)
  | otherError (message : String)
  deriving DecidableEq

/-- Value of `str(e)` for each error; `ProviderError.__init__` passes the
composed text to `RuntimeError`. -/
def FbError.pyStr : FbError → String
  | .providerError c m => "Provider returned " ++ toString c ++ ": " ++ m
  | .connectError m => m
  | .connectTimeout m => m
  | .readTimeout m => m
  | .runtimeError m => m
  | .otherError m => m

/-- Line 41: the HTTP status codes that trigger a fallback attempt. -/
def RETRYABLE_STATUS_CODES : List Nat := [429, 500, 502, 503, 504]

/-- Line 134: the substrings recognized in a generic RuntimeError message. -/
def retryable_substrings : List String :=
  ["429", "500", "502", "503", "504", "timeout"]

/-- Lines 121-136: `is_retryable_error`.  The isinstance checks run in source
order, so a `ProviderError` is classified by its status code even though it is
also a `RuntimeError`. -/
def is_retryable_error : FbError → Bool
  | .providerError c _ => RETRYABLE_STATUS_CODES.contains c
  | .connectError _ => true
  | .connectTimeout _ => true
  | .readTimeout _ => true
  | .runtimeError m => retryable_substrings.any (fun code => pyIn code (pyLower m))
  | .otherError _ => false

/-- Lines 29-38: the configured fallback chains per primary tier. -/
def FALLBACK_CHAINS (tier : String) : List String :=
  if tier == "claude-premium" then ["openrouter-claude"] else []

/-- Lines 110-118: `get_fallback_tiers` returns the full ordered chain,
primary first. -/
def get_fallback_tiers (primary : String) : List String :=
  [primary] ++ FALLBACK_CHAINS primary

/-- Line 44: fixed delay in seconds between fallback attempts. -/
def FALLBACK_DELAY_SECONDS : ℚ := 3 / 2

/-- Observable side effects of `execute_with_fallback`, in order: the Provider
Health updates and the backoff sleeps. -/
inductive FbEvent
  | recordSuccess (tier : String)
  | recordFailure (tier : String) (errMsg : String)
  | sleepDelay (seconds : ℚ)
  deriving DecidableEq

/-- Lines 160-192: the body of the `for` loop of `execute_with_fallback` over
the remaining tiers.  One attempt per tier (`attempt` folds `resolve_config_fn`
and `execute_fn`; an exception from either is caught by the same handler).  On
success, success is recorded and the result returned at once.  On failure the
failure is recorded with the message truncated to 200 characters; a
non-retryable error is re-raised at once; with providers remaining the loop
sleeps `FALLBACK_DELAY_SECONDS` and goes on; with none remaining the loop ends
and line 195 raises the last error.  The empty case is unreachable from
`execute_with_fallback`, whose tier list always starts with the primary. -/
def fbLoop {R : Type} (attempt : String → Except FbError R) :
    List String → Except FbError R × List FbEvent
  | [] => (.error (.otherError "no providers"), [])
  | tier :: rest =>
    match attempt tier with
    | .ok r => (.ok r, [.recordSuccess tier])
    | .error e =>
      if !is_retryable_error e then
        (.error e, [.recordFailure tier (e.pyStr.take 200)])
      else if rest.isEmpty then
        (.error e, [.recordFailure tier (e.pyStr.take 200)])
      else
        ((fbLoop attempt rest).1,
         .recordFailure tier (e.pyStr.take 200)
           :: .sleepDelay FALLBACK_DELAY_SECONDS :: (fbLoop attempt rest).2)

/-- Lines 139-195: `execute_with_fallback` walks the chain of
`get_fallback_tiers`. -/
def execute_with_fallback {R : Type} (primary : String)
    (attempt : String → Except FbError R) : Except FbError R × List FbEvent :=
  fbLoop attempt (get_fallback_tiers primary)

/-! ## Provider health (fallback.py lines 51-103) -/

/-- The `ProviderHealth` dataclass with its defaults; timestamps are abstract
ticks standing for `time.time()`. -/
structure ProviderHealth where
  last_success : Option Nat := none
  last_error : Option Nat := none
  last_error_msg : Option String := none
  consecutive_failures : Nat := 0
  deriving DecidableEq

/-- Lines 59-65: the derived status. -/
def ProviderHealth.status (h : ProviderHealth) : String :=
  if h.consecutive_failures == 0 then "up"
  else if h.consecutive_failures < 3 then "degraded"
  else "down"

/-- Lines 72-76: `get_provider_health`, get-or-create with a default record
(the association list stands for the `_provider_health` dict). -/
def getHealth : List (String × ProviderHealth) → String → ProviderHealth
  | [], _ => {}
  | (k, v) :: rest, tier => if k = tier then v else getHealth rest tier

/-- Store a record under a tier id, replacing an existing entry. -/
def setHealth : List (String × ProviderHealth) → String → ProviderHealth →
    List (String × ProviderHealth)
  | [], tier, h => [(tier, h)]
  | (k, v) :: rest, tier, h =>
    if k = tier then (tier, h) :: rest else (k, v) :: setHealth rest tier h

/-- Lines 79-83: `record_success` stamps the time and resets the counter. -/
def record_success (now : Nat) (hm : List (String × ProviderHealth))
    (tier : String) : List (String × ProviderHealth) :=
  let h := getHealth hm tier
  setHealth hm tier { h with last_success := some now, consecutive_failures := 0 }

/-- Lines 86-91: `record_failure` stamps the time, keeps the message and
increments the counter. -/
def record_failure (now : Nat) (hm : List (String × ProviderHealth))
    (tier : String) (msg : String) : List (String × ProviderHealth) :=
  let h := getHealth hm tier
  setHealth hm tier
    { h with last_error := some now, last_error_msg := some msg,
             consecutive_failures := h.consecutive_failures + 1 }

/-- Apply the Provider Health updates of an event trace in order; the k-th
event happens at tick `now + k`. -/
def applyEvents (now : Nat) (hm : List (String × ProviderHealth)) :
    List FbEvent → List (String × ProviderHealth)
  | [] => hm
  | .recordSuccess t :: evs => applyEvents (now + 1) (record_success now hm t) evs
  | .recordFailure t m :: evs => applyEvents (now + 1) (record_failure now hm t m) evs
  | .sleepDelay _ :: evs => applyEvents (now + 1) hm evs

/-! ## Derived traces of the streaming loop -/

/-- The chunks of the stream as the loop forwards them: each one in converted
(dict) form, in order. -/
def liveMsgs (msgs : List MsgIn) : List Msg :=
  msgs.map (fun mi => toDictStyle mi.msg)

/-- Whether some chunk of the stream carries a completion marker. -/
def anyMarker (msgs : List MsgIn) : Bool :=
  msgs.any (fun mi => isResultComplete (toDictStyle mi.msg))

/-- The cache state after the loop consumed the whole stream. -/
def cacheRun (maxBytes : Nat) (c : CacheState) (msgs : List MsgIn) : CacheState :=
  msgs.foldl (fun c mi => cacheAppend maxBytes c mi (toDictStyle mi.msg)) c

/-- Tiers a fallback event trace touched, in order. -/
def attemptedOf (evs : List FbEvent) : List String :=
  evs.filterMap (fun e =>
    match e with
    | .recordSuccess t => some t
    | .recordFailure t _ => some t
    | .sleepDelay _ => none)

/-- Backoff sleeps of a fallback event trace, in order. -/
def sleepsOf (evs : List FbEvent) : List ℚ :=
  evs.filterMap (fun e =>
    match e with
    | .sleepDelay d => some d
    | _ => none)

/-! ## Concrete streams and attempts used as inputs -/

/-- Assistant chunk (object style, as the SDK delivers it) whose text contains
the rate-limit phrase `hit your limit`. -/
def rlMsg : Msg :=
  ⟨.object "AssistantMessage", none, none, some [⟨some "You have hit your limit for today"⟩]⟩

def rlIn : MsgIn := ⟨rlMsg, 120, .ok⟩

/-- System chunk (object style), internal-only by design. -/
def sysMsg : Msg := ⟨.object "SystemMessage", none, some "init", none⟩

def sysIn : MsgIn := ⟨sysMsg, 80, .ok⟩

/-- Ordinary content chunk already in dict form. -/
def plainMsg : Msg := ⟨.pdict, none, none, some [⟨some "hello"⟩]⟩

def plainIn : MsgIn := ⟨plainMsg, 40, .ok⟩

def c6m1 : Msg := ⟨.pdict, none, none, some [⟨some "first part"⟩]⟩

def c6m2 : Msg := ⟨.pdict, none, none, some [⟨some "second part"⟩]⟩

def c10m1 : Msg := ⟨.pdict, none, none, some [⟨some "alpha"⟩]⟩

def c10m2 : Msg := ⟨.pdict, none, none, some [⟨some "beta"⟩]⟩

def c10m3 : Msg := ⟨.pdict, none, none, some [⟨some "gamma"⟩]⟩

/-- Scenario F attempts: the primary fails with HTTP 503, the fallback
succeeds. -/
def scenarioF_attempt : String → Except FbError Nat :=
  fun t =>
    if t == "claude-premium" then .error (.providerError 503 "Service Unavailable")
    else .ok 42

/-! ## Characterization of the streaming loop

The dict conversion of lines 893-909 runs before the checks of lines 980 and
1023, so by the time those checks compare `type(message).__name__` the value
is always the string `dict`: the early rate-limit gate and the SystemMessage
skip can never fire, and the loop forwards every chunk. -/

theorem pyTypeName_toDictStyle (m : Msg) : (toDictStyle m).pyTypeName = "dict" := rfl

theorem msgHitsRateLimit_toDictStyle (m : Msg) :
    msgHitsRateLimit (toDictStyle m) = false := by
  have h : ((toDictStyle m).pyTypeName == "AssistantMessage") = false := by
    rw [pyTypeName_toDictStyle]; decide
  unfold msgHitsRateLimit
  rw [h]
  rfl

theorem notSystemMessage_toDictStyle (m : Msg) :
    ((toDictStyle m).pyTypeName == "SystemMessage") = false := by
  rw [pyTypeName_toDictStyle]; decide

theorem stepMsg_ok (maxB : Nat) (s : LoopState) (mi : MsgIn) :
    stepMsg maxB s mi = .ok
      { chunksReceived := s.chunksReceived + 1
        cache := cacheAppend maxB s.cache mi (toDictStyle mi.msg)
        responseComplete := s.responseComplete || isResultComplete (toDictStyle mi.msg)
        yielded := s.yielded ++ [toDictStyle mi.msg]
        rateLimitMarked := s.rateLimitMarked
        sessionStatus := s.sessionStatus } := by
  unfold stepMsg
  simp only [msgHitsRateLimit_toDictStyle, notSystemMessage_toDictStyle,
    Bool.false_eq_true, if_false]
  cases h : isResultComplete (toDictStyle mi.msg) <;>
    simp [h]

theorem runLoop_ok (maxB : Nat) (msgs : List MsgIn) : ∀ (st : LoopState),
    runLoop maxB st msgs = .ok
      { chunksReceived := st.chunksReceived + msgs.length
        cache := cacheRun maxB st.cache msgs
        responseComplete := st.responseComplete || anyMarker msgs
        yielded := st.yielded ++ liveMsgs msgs
        rateLimitMarked := st.rateLimitMarked
        sessionStatus := st.sessionStatus } := by
  induction msgs with
  | nil =>
    intro st
    simp [runLoop, cacheRun, anyMarker, liveMsgs]
  | cons mi rest ih =>
    intro st
    have h1 : runLoop maxB st (mi :: rest) = runLoop maxB
        { chunksReceived := st.chunksReceived + 1
          cache := cacheAppend maxB st.cache mi (toDictStyle mi.msg)
          responseComplete := st.responseComplete || isResultComplete (toDictStyle mi.msg)
          yielded := st.yielded ++ [toDictStyle mi.msg]
          rateLimitMarked := st.rateLimitMarked
          sessionStatus := st.sessionStatus } rest := by
      rw [runLoop, stepMsg_ok]
    rw [h1, ih]
    simp [cacheRun, anyMarker, liveMsgs, Bool.or_assoc]
    omega

theorem run_completion_normal (eFD : Bool) (maxB : Nat) (msgs : List MsgIn) :
    run_completion eFD maxB msgs .normal =
      { yielded := (liveMsgs msgs).map OutChunk.msg
          ++ (if !anyMarker msgs && msgs.length != 0 then
                [OutChunk.noCompletionMarker msgs.length] else [])
          ++ (if eFD then [OutChunk.metadata] else [])
        outcome := .ok
        status := some .completed
        cacheWritten := (cacheRun maxB initCache msgs).lines
        cacheAtEnd := none
        rateLimitMarked := false } := by
  unfold run_completion
  rw [runLoop_ok]
  simp [initLoop, completeSession, finallyCleanup]

theorem run_completion_timeout (eFD : Bool) (maxB : Nat) (msgs : List MsgIn) :
    run_completion eFD maxB msgs .timeout =
      { yielded := (liveMsgs msgs).map OutChunk.msg ++ [OutChunk.timeoutIncomplete]
        outcome := .timeoutRaised
        status := some .failed
        cacheWritten := (cacheRun maxB initCache msgs).lines
        cacheAtEnd := none
        rateLimitMarked := false } := by
  unfold run_completion
  rw [runLoop_ok]
  simp [initLoop, completeSession]

theorem run_completion_crash (eFD : Bool) (maxB : Nat) (msgs : List MsgIn)
    (emsg : String) :
    run_completion eFD maxB msgs (.crash emsg) =
      if matchesWorkerUnavailable emsg then
        { yielded := (liveMsgs msgs).map OutChunk.msg
          outcome := .workerUnavailable ("Claude SDK failed: " ++ emsg)
          status := some .failed
          cacheWritten := (cacheRun maxB initCache msgs).lines
          cacheAtEnd := none
          rateLimitMarked := false }
      else
        { yielded := (liveMsgs msgs).map OutChunk.msg
            ++ [OutChunk.errorDuringExecution emsg]
          outcome := .ok
          status := some .failed
          cacheWritten := (cacheRun maxB initCache msgs).lines
          cacheAtEnd := none
          rateLimitMarked := false } := by
  unfold run_completion
  rw [runLoop_ok]
  cases h : matchesWorkerUnavailable emsg <;>
    simp [initLoop, completeSession, crashHandler, recoveryYields, finallyCleanup, h]

/-! ## Characterization of the fallback loop -/

theorem getLast?_cons_ne {α : Type} {a : α} {l : List α} (h : l ≠ []) :
    (a :: l).getLast? = l.getLast? := by
  cases l with
  | nil => exact absurd rfl h
  | cons b t => simp [List.getLast?_cons_cons]

theorem dropLast_cons_ne {α : Type} {a : α} {l : List α} (h : l ≠ []) :
    (a :: l).dropLast = a :: l.dropLast := by
  cases l with
  | nil => exact absurd rfl h
  | cons b t => rfl

/-- Full behavioural description of the fallback loop over a nonempty tier
list: some prefix of length k is attempted in order; every non-final attempted
tier failed retryably; one backoff sleep separates consecutive attempts; the
result and last recorded event are those of the last attempted tier, and a
retryable error is only propagated once the whole chain is exhausted; each
attempted tier gets its health event. -/
theorem fbLoop_spec {R : Type} (attempt : String → Except FbError R) :
    ∀ l : List String, l ≠ [] →
    ∃ k, 1 ≤ k ∧ k ≤ l.length ∧
      attemptedOf (fbLoop attempt l).2 = l.take k ∧
      sleepsOf (fbLoop attempt l).2 = List.replicate (k - 1) FALLBACK_DELAY_SECONDS ∧
      (∀ t ∈ (l.take k).dropLast, ∃ e, attempt t = .error e ∧ is_retryable_error e = true) ∧
      (∀ t, (l.take k).getLast? = some t →
        (∀ r, attempt t = .ok r →
          (fbLoop attempt l).1 = .ok r ∧
          (fbLoop attempt l).2.getLast? = some (.recordSuccess t)) ∧
        (∀ e, attempt t = .error e →
          (fbLoop attempt l).1 = .error e ∧
          (fbLoop attempt l).2.getLast? = some (.recordFailure t (e.pyStr.take 200)) ∧
          (is_retryable_error e = true → k = l.length))) ∧
      (∀ t ∈ attemptedOf (fbLoop attempt l).2,
        (∃ r, attempt t = .ok r ∧ FbEvent.recordSuccess t ∈ (fbLoop attempt l).2) ∨
        (∃ e, attempt t = .error e ∧
          FbEvent.recordFailure t (e.pyStr.take 200) ∈ (fbLoop attempt l).2)) := by
  intro l
  induction l with
  | nil => intro h; exact absurd rfl h
  | cons tier rest ih =>
    intro _
    cases hatt : attempt tier with
    | ok r =>
      have hout : fbLoop attempt (tier :: rest) = (.ok r, [.recordSuccess tier]) := by
        rw [fbLoop, hatt]
      rw [hout]
      refine ⟨1, le_refl 1, by simp, ?_, ?_, ?_, ?_, ?_⟩
      · simp [attemptedOf]
      · simp [sleepsOf]
      · simp
      · intro t ht
        simp at ht
        subst ht
        refine ⟨fun r' hr' => ?_, fun e he => ?_⟩
        · rw [hatt] at hr'
          cases hr'
          exact ⟨rfl, rfl⟩
        · rw [hatt] at he
          cases he
      · intro t ht
        simp [attemptedOf] at ht
        subst ht
        exact Or.inl ⟨r, hatt, by simp⟩
    | error e =>
      by_cases hr : is_retryable_error e = true
      · by_cases hrest : rest = []
        · subst hrest
          have hout : fbLoop attempt [tier] =
              (.error e, [.recordFailure tier (e.pyStr.take 200)]) := by
            rw [fbLoop, hatt]
            simp [hr]
          rw [hout]
          refine ⟨1, le_refl 1, by simp, ?_, ?_, ?_, ?_, ?_⟩
          · simp [attemptedOf]
          · simp [sleepsOf]
          · simp
          · intro t ht
            simp at ht
            subst ht
            refine ⟨fun r' hr' => ?_, fun e' he => ?_⟩
            · rw [hatt] at hr'
              cases hr'
            · rw [hatt] at he
              cases he
              exact ⟨rfl, rfl, fun _ => by simp⟩
          · intro t ht
            simp [attemptedOf] at ht
            subst ht
            exact Or.inr ⟨e, hatt, by simp⟩
        · have hre : rest.isEmpty = false := by
            cases rest with
            | nil => exact absurd rfl hrest
            | cons a b => rfl
          have hout : fbLoop attempt (tier :: rest) =
              ((fbLoop attempt rest).1,
               .recordFailure tier (e.pyStr.take 200)
                 :: .sleepDelay FALLBACK_DELAY_SECONDS :: (fbLoop attempt rest).2) := by
            rw [fbLoop, hatt]
            simp [hr, hre]
          obtain ⟨k, hk1, hk2, hatt2, hsleep, hdrop, hlast, hmem⟩ := ih hrest
          have htkne : rest.take k ≠ [] := by
            intro h0
            rcases List.take_eq_nil_iff.mp h0 with h | h
            · omega
            · exact hrest h
          have hevne : (fbLoop attempt rest).2 ≠ [] := by
            intro h0
            rw [h0] at hatt2
            exact htkne (by simpa [attemptedOf] using hatt2.symm)
          rw [hout]
          refine ⟨k + 1, by omega, by simp; omega, ?_, ?_, ?_, ?_, ?_⟩
          · simp only [attemptedOf, List.filterMap_cons]
            simp only [attemptedOf] at hatt2
            simp [hatt2, List.take_succ_cons]
          · obtain ⟨n, rfl⟩ : ∃ n, k = n + 1 := ⟨k - 1, by omega⟩
            simp only [sleepsOf, List.filterMap_cons]
            simp only [sleepsOf] at hsleep
            simp [hsleep, List.replicate_succ]
          · rw [List.take_succ_cons, dropLast_cons_ne htkne]
            intro t ht
            rcases List.mem_cons.mp ht with h | h
            · subst h
              exact ⟨e, hatt, hr⟩
            · exact hdrop t h
          · rw [List.take_succ_cons, getLast?_cons_ne htkne]
            intro t ht
            obtain ⟨hok, herr⟩ := hlast t ht
            refine ⟨fun r' hr' => ?_, fun e' he' => ?_⟩
            · obtain ⟨h1, h2⟩ := hok r' hr'
              refine ⟨h1, ?_⟩
              rw [getLast?_cons_ne (by simp), getLast?_cons_ne hevne]
              exact h2
            · obtain ⟨h1, h2, h3⟩ := herr e' he'
              refine ⟨h1, ?_, fun hre' => ?_⟩
              · rw [getLast?_cons_ne (by simp), getLast?_cons_ne hevne]
                exact h2
              · have hk := h3 hre'
                simp [hk]
          · intro t ht
            simp only [attemptedOf, List.filterMap_cons] at ht
            simp at ht
            rcases ht with h | h
            · subst h
              exact Or.inr ⟨e, hatt, by simp⟩
            · rcases hmem t (by simpa [attemptedOf] using h) with ⟨r', h1, h2⟩ | ⟨e', h1, h2⟩
              · exact Or.inl ⟨r', h1, by simp [h2]⟩
              · exact Or.inr ⟨e', h1, by simp [h2]⟩
      · have hrb : is_retryable_error e = false := by
          cases h0 : is_retryable_error e with
          | false => rfl
          | true => exact absurd h0 hr
        have hout : fbLoop attempt (tier :: rest) =
            (.error e, [.recordFailure tier (e.pyStr.take 200)]) := by
          rw [fbLoop, hatt]
          simp [hrb]
        rw [hout]
        refine ⟨1, le_refl 1, by simp, ?_, ?_, ?_, ?_, ?_⟩
        · simp [attemptedOf]
        · simp [sleepsOf]
        · simp
        · intro t ht
          simp at ht
          subst ht
          refine ⟨fun r' hr' => ?_, fun e' he => ?_⟩
          · rw [hatt] at hr'
            cases hr'
          · rw [hatt] at he
            cases he
            exact ⟨rfl, rfl, fun hre' => absurd hre' hr⟩
        · intro t ht
          simp [attemptedOf] at ht
          subst ht
          exact Or.inr ⟨e, hatt, by simp⟩

/-! ## Provider health lemmas -/

theorem getHealth_setHealth_same (hm : List (String × ProviderHealth))
    (tier : String) (h : ProviderHealth) :
    getHealth (setHealth hm tier h) tier = h := by
  induction hm with
  | nil => simp [setHealth, getHealth]
  | cons p rest ih =>
    obtain ⟨k, v⟩ := p
    by_cases hk : k = tier
    · simp [setHealth, getHealth, hk]
    · simp [setHealth, getHealth, hk, ih]

theorem record_success_getHealth (now : Nat) (hm : List (String × ProviderHealth))
    (tier : String) :
    getHealth (record_success now hm tier) tier =
      { getHealth hm tier with last_success := some now, consecutive_failures := 0 } := by
  simp [record_success, getHealth_setHealth_same]

theorem record_failure_getHealth (now : Nat) (hm : List (String × ProviderHealth))
    (tier msg : String) :
    getHealth (record_failure now hm tier msg) tier =
      { getHealth hm tier with
          last_error := some now
          last_error_msg := some msg
          consecutive_failures := (getHealth hm tier).consecutive_failures + 1 } := by
  simp [record_failure, getHealth_setHealth_same]

/-! ## Congruence of the caller-visible behaviour in the cache parameters -/

theorem liveMsgs_congr {msgs msgs2 : List MsgIn}
    (h : msgs.map MsgIn.msg = msgs2.map MsgIn.msg) : liveMsgs msgs = liveMsgs msgs2 := by
  unfold liveMsgs
  rw [show (fun mi : MsgIn => toDictStyle mi.msg) = toDictStyle ∘ MsgIn.msg from rfl,
    ← List.map_map, h, List.map_map]

theorem anyMarker_eq_live (msgs : List MsgIn) :
    anyMarker msgs = (liveMsgs msgs).any isResultComplete := by
  induction msgs with
  | nil => rfl
  | cons mi rest ih =>
    simp only [anyMarker, liveMsgs, List.any_cons, List.map_cons] at ih ⊢
    rw [ih]

theorem length_congr {msgs msgs2 : List MsgIn}
    (h : msgs.map MsgIn.msg = msgs2.map MsgIn.msg) : msgs.length = msgs2.length := by
  have := congrArg List.length h
  simpa using this

/-! ## The claims -/

/-- Claim C1 (code bug evidence): a backend content chunk whose text contains a
rate-limit phrase does not make `run_completion` fail over.  The phrase scan of
lines 980-996 requires the Python type name `AssistantMessage`, but the dict
conversion of lines 893-909 has already replaced the message by a plain dict,
so the gate never fires: the chunk is forwarded to the caller, no
`WorkerUnavailableError` is raised from chunk text, the worker is never marked
rate limited, and the invocation completes normally.  The first two conjuncts
show the scan does match the raw object chunk and stops matching after the
conversion; the last shows no run of `run_completion` ever marks the rate-limit
tracker. -/
theorem C1_early_rate_limit_gate_dead :
    msgHitsRateLimit rlMsg = true ∧
    msgHitsRateLimit (toDictStyle rlMsg) = false ∧
    run_completion false max_cache_bytes [rlIn] .normal =
      { yielded := [.msg (toDictStyle rlMsg), .noCompletionMarker 1]
        outcome := .ok
        status := some .completed
        cacheWritten := [.valid (toDictStyle rlMsg)]
        cacheAtEnd := none
        rateLimitMarked := false } ∧
    (∀ (eFD : Bool) (maxB : Nat) (msgs : List MsgIn) (term : StreamEnd),
      (run_completion eFD maxB msgs term).rateLimitMarked = false) := by
  refine ⟨by decide, msgHitsRateLimit_toDictStyle rlMsg, by decide, ?_⟩
  intro eFD maxB msgs term
  cases term with
  | normal => rw [run_completion_normal]
  | timeout => rw [run_completion_timeout]
  | crash e =>
    rw [run_completion_crash]
    by_cases h : matchesWorkerUnavailable e <;> simp [h]

/-- Claim C2 counterexample: after one content chunk has been forwarded, an SDK
exception whose message contains a rate-limit signature still raises
`WorkerUnavailableError` — the commitment invariant the claim states does not
hold on the code. -/
theorem C2_commitment_counterexample :
    (run_completion false max_cache_bytes [plainIn] (.crash "rate limit")).yielded =
      [.msg plainMsg] ∧
    (run_completion false max_cache_bytes [plainIn] (.crash "rate limit")).outcome =
      .workerUnavailable "Claude SDK failed: rate limit" := by
  refine ⟨by decide, by decide⟩

/-- Claim C2 (amended): rate-limit text in a chunk never raises
`WorkerUnavailable` at all (the chunk-text gate is dead), so the only source of
`WorkerUnavailable` is an exception whose message matches the rate-limit/auth
signature — and that raise happens whether or not chunks were already
forwarded; an exception not matching the signature is surfaced to the caller as
an inline error chunk instead. -/
theorem C2_rate_limit_after_commit_amended (eFD : Bool) (maxB : Nat)
    (msgs : List MsgIn) (emsg : String) :
    (∀ (term : StreamEnd) (w : String),
      (run_completion eFD maxB msgs term).outcome = .workerUnavailable w →
      ∃ e, term = .crash e ∧ matchesWorkerUnavailable e = true ∧
        w = "Claude SDK failed: " ++ e) ∧
    (matchesWorkerUnavailable emsg = true →
      (run_completion eFD maxB msgs (.crash emsg)).outcome =
        .workerUnavailable ("Claude SDK failed: " ++ emsg)) ∧
    (matchesWorkerUnavailable emsg = false →
      (run_completion eFD maxB msgs (.crash emsg)).outcome = .ok ∧
      (run_completion eFD maxB msgs (.crash emsg)).yielded =
        (liveMsgs msgs).map OutChunk.msg ++ [OutChunk.errorDuringExecution emsg]) := by
  refine ⟨?_, ?_, ?_⟩
  · intro term w h
    cases term with
    | normal => rw [run_completion_normal] at h; cases h
    | timeout => rw [run_completion_timeout] at h; cases h
    | crash e =>
      rw [run_completion_crash] at h
      by_cases hm : matchesWorkerUnavailable e
      · simp only [hm, if_true] at h
        exact ⟨e, rfl, hm, (Outcome.workerUnavailable.inj h).symm⟩
      · simp only [hm, if_false] at h
        simp at hm
        simp [hm] at h
  · intro h
    rw [run_completion_crash]
    simp [h]
  · intro h
    rw [run_completion_crash]
    simp [h]

/-- Claim C3 (code bug evidence): a `SystemMessage` chunk is not skipped.  The
skip of lines 1018-1025 compares the Python type name with `SystemMessage`
after the dict conversion of lines 893-909 has made that name `dict`, so the
internal-only chunk is forwarded to the caller; in general every received
chunk of a normally ending stream is forwarded. -/
theorem C3_system_chunk_forwarded :
    sysMsg.pyTypeName = "SystemMessage" ∧
    run_completion false max_cache_bytes [sysIn] .normal =
      { yielded := [.msg (toDictStyle sysMsg), .noCompletionMarker 1]
        outcome := .ok
        status := some .completed
        cacheWritten := [.valid (toDictStyle sysMsg)]
        cacheAtEnd := none
        rateLimitMarked := false } ∧
    (∀ (eFD : Bool) (maxB : Nat) (msgs : List MsgIn), ∀ mi ∈ msgs,
      OutChunk.msg (toDictStyle mi.msg) ∈ (run_completion eFD maxB msgs .normal).yielded) := by
  refine ⟨rfl, by decide, ?_⟩
  intro eFD maxB msgs mi hmi
  rw [run_completion_normal]
  apply List.mem_append_left
  apply List.mem_append_left
  exact List.mem_map_of_mem OutChunk.msg (List.mem_map_of_mem _ hmi)

/-- Claim C4 counterexample: a backend stream that delivers zero chunks and
ends normally produces an empty success — the caller receives no diagnostic
chunk at all and the invocation is marked completed (the zero-chunk condition
of lines 1071-1087 is only logged). -/
theorem C4_zero_chunks_counterexample :
    run_completion false max_cache_bytes [] .normal =
      { yielded := []
        outcome := .ok
        status := some .completed
        cacheWritten := []
        cacheAtEnd := none
        rateLimitMarked := false } := by
  decide

/-- Claim C4 (amended): when the stream ends without a completion marker and at
least one chunk was received, the explicit `no_completion_marker` diagnostic
chunk follows the forwarded chunks and the invocation still ends completed;
when zero chunks were received the condition is only logged — the caller
receives no diagnostic chunk and the invocation still ends completed. -/
theorem C4_incompleteness_reporting_amended (eFD : Bool) (maxB : Nat)
    (msgs : List MsgIn) (hne : msgs ≠ []) (hnm : anyMarker msgs = false) :
    (run_completion eFD maxB msgs .normal).yielded =
      (liveMsgs msgs).map OutChunk.msg ++ [OutChunk.noCompletionMarker msgs.length] ++
        (if eFD then [OutChunk.metadata] else []) ∧
    (run_completion eFD maxB msgs .normal).status = some .completed ∧
    (run_completion eFD maxB [] .normal).yielded = (if eFD then [OutChunk.metadata] else []) ∧
    (run_completion eFD maxB [] .normal).outcome = .ok ∧
    (run_completion eFD maxB [] .normal).status = some .completed := by
  have hlen : (msgs.length != 0) = true := by
    cases msgs with
    | nil => exact absurd rfl hne
    | cons a b => simp
  refine ⟨?_, ?_, ?_, ?_, ?_⟩
  · rw [run_completion_normal]
    simp [hnm, hlen]
  · rw [run_completion_normal]
  · rw [run_completion_normal]
    simp [anyMarker, liveMsgs]
  · rw [run_completion_normal]
  · rw [run_completion_normal]

/-- Claim C4 amended, witnessed at a one-chunk stream with no marker. -/
theorem C4_amended_witness :
    (run_completion false max_cache_bytes [plainIn] .normal).yielded =
      (liveMsgs [plainIn]).map OutChunk.msg ++
        [OutChunk.noCompletionMarker (List.length [plainIn])] ++
        (if false then [OutChunk.metadata] else []) :=
  (C4_incompleteness_reporting_amended false max_cache_bytes [plainIn]
    (by decide) (by decide)).1

/-- Claim C5: on the overall timeout, the cache file is deleted and no recovery
is attempted, the caller receives the forwarded chunks followed by exactly one
`timeout_incomplete` error chunk, the timeout is re-raised after cleanup, and
the invocation ends failed. -/
theorem C5_timeout_contract (eFD : Bool) (maxB : Nat) (msgs : List MsgIn) :
    (run_completion eFD maxB msgs .timeout).cacheAtEnd = none ∧
    (run_completion eFD maxB msgs .timeout).yielded =
      (liveMsgs msgs).map OutChunk.msg ++ [OutChunk.timeoutIncomplete] ∧
    (run_completion eFD maxB msgs .timeout).yielded.count OutChunk.timeoutIncomplete = 1 ∧
    (run_completion eFD maxB msgs .timeout).outcome = .timeoutRaised ∧
    (run_completion eFD maxB msgs .timeout).status = some .failed := by
  rw [run_completion_timeout]
  refine ⟨rfl, rfl, ?_, rfl, rfl⟩
  have h0 : ((liveMsgs msgs).map OutChunk.msg).count OutChunk.timeoutIncomplete = 0 := by
    rw [List.count_eq_zero]
    simp [liveMsgs]
  simp [List.count_append, h0]

/-- Claim C6 (code bug evidence): an invocation that crashes with a
non-matching exception after two chunks were cached does not replay them.  The
cache file was deleted by the `finally` of line 1250 during unwinding, before
the handler of line 1328 looks for it, so the caller receives only the single
generic error chunk.  The second conjunct shows what the (dead) recovery body
would have produced from that cache; the third shows its decoder skips corrupt
lines without aborting. -/
theorem C6_crash_recovery_dead :
    run_completion false max_cache_bytes
        [⟨c6m1, 30, .ok⟩, ⟨c6m2, 30, .ok⟩] (.crash "boom") =
      { yielded := [.msg c6m1, .msg c6m2, .errorDuringExecution "boom"]
        outcome := .ok
        status := some .failed
        cacheWritten := [.valid c6m1, .valid c6m2]
        cacheAtEnd := none
        rateLimitMarked := false } ∧
    recoveryYields (some [.valid c6m1, .valid c6m2]) "boom" =
      [.msg c6m1, .msg c6m2, .incompleteAfterCrash 2 "boom"] ∧
    replayChunks [.valid c6m1, .corrupt, .valid c6m2] = [c6m1, c6m2] := by
  refine ⟨by decide, by decide, by decide⟩

/-- Claim C7: once the byte budget would be exceeded the cache is disabled for
the rest of the invocation without writing the chunk, a disabled cache accepts
no further writes, a write failure also only disables the cache, and the
caller-visible stream, outcome and final status do not depend on the budget or
on the cache behaviour of the chunks at all; the default budget is
10 * 1024 * 1024 bytes. -/
theorem C7_cache_bound_contract (maxB maxB2 : Nat) (c : CacheState) (mi : MsgIn)
    (m : Msg) (eFD : Bool) (term : StreamEnd) (msgs msgs2 : List MsgIn) :
    (c.enabled = true → c.bytes + mi.size > maxB →
      cacheAppend maxB c mi m = { c with enabled := false }) ∧
    (c.enabled = false → cacheAppend maxB c mi m = c) ∧
    (c.enabled = true → c.bytes + mi.size ≤ maxB → mi.write ≠ .ok →
      (cacheAppend maxB c mi m).enabled = false) ∧
    (msgs.map MsgIn.msg = msgs2.map MsgIn.msg →
      (run_completion eFD maxB msgs term).yielded =
        (run_completion eFD maxB2 msgs2 term).yielded ∧
      (run_completion eFD maxB msgs term).outcome =
        (run_completion eFD maxB2 msgs2 term).outcome ∧
      (run_completion eFD maxB msgs term).status =
        (run_completion eFD maxB2 msgs2 term).status) ∧
    max_cache_bytes = 10 * 1024 * 1024 := by
  refine ⟨?_, ?_, ?_, ?_, rfl⟩
  · intro h1 h2
    simp [cacheAppend, h1, h2]
  · intro h1
    simp [cacheAppend, h1]
  · intro h1 h2 h3
    have h2n : ¬(c.bytes + mi.size > maxB) := by omega
    cases hw : mi.write with
    | ok => exact absurd hw h3
    | failLost => simp [cacheAppend, h1, h2n, hw]
    | failTorn => simp [cacheAppend, h1, h2n, hw]
  · intro h
    have hl := liveMsgs_congr h
    have ha : anyMarker msgs = anyMarker msgs2 := by
      rw [anyMarker_eq_live, anyMarker_eq_live, hl]
    have hn := length_congr h
    cases term with
    | normal =>
      rw [run_completion_normal, run_completion_normal]
      refine ⟨?_, rfl, rfl⟩
      rw [hl, ha, hn]
    | timeout =>
      rw [run_completion_timeout, run_completion_timeout]
      refine ⟨?_, rfl, rfl⟩
      rw [hl]
    | crash e =>
      rw [run_completion_crash, run_completion_crash]
      by_cases hm : matchesWorkerUnavailable e <;>
        simp [hm, hl]

/-- Claim C8: the fallback orchestrator attempts some prefix of the chain
`[primary] ++ configured fallbacks` in exactly that order; every non-final
attempted tier failed retryably (so a success returns at once and a
non-retryable error propagates at once with no further attempt); the result
and the last health record come from the last attempted tier, and a retryable
error is only propagated once the whole chain is exhausted; exactly one fixed
1.5 second sleep separates consecutive attempts; every attempted tier gets its
success or failure recorded. -/
theorem C8_fallback_chain_contract {R : Type} (primary : String)
    (attempt : String → Except FbError R) :
    get_fallback_tiers primary = primary :: FALLBACK_CHAINS primary ∧
    FALLBACK_DELAY_SECONDS = 3 / 2 ∧
    (∃ k, 1 ≤ k ∧ k ≤ (get_fallback_tiers primary).length ∧
      attemptedOf (execute_with_fallback primary attempt).2 =
        (get_fallback_tiers primary).take k ∧
      sleepsOf (execute_with_fallback primary attempt).2 =
        List.replicate (k - 1) FALLBACK_DELAY_SECONDS ∧
      (∀ t ∈ ((get_fallback_tiers primary).take k).dropLast,
        ∃ e, attempt t = .error e ∧ is_retryable_error e = true) ∧
      (∀ t, ((get_fallback_tiers primary).take k).getLast? = some t →
        (∀ r, attempt t = .ok r →
          (execute_with_fallback primary attempt).1 = .ok r ∧
          (execute_with_fallback primary attempt).2.getLast? =
            some (.recordSuccess t)) ∧
        (∀ e, attempt t = .error e →
          (execute_with_fallback primary attempt).1 = .error e ∧
          (execute_with_fallback primary attempt).2.getLast? =
            some (.recordFailure t (e.pyStr.take 200)) ∧
          (is_retryable_error e = true → k = (get_fallback_tiers primary).length))) ∧
      (∀ t ∈ attemptedOf (execute_with_fallback primary attempt).2,
        (∃ r, attempt t = .ok r ∧
          FbEvent.recordSuccess t ∈ (execute_with_fallback primary attempt).2) ∨
        (∃ e, attempt t = .error e ∧
          FbEvent.recordFailure t (e.pyStr.take 200) ∈
            (execute_with_fallback primary attempt).2))) := by
  refine ⟨rfl, rfl, ?_⟩
  exact fbLoop_spec attempt (get_fallback_tiers primary) (by simp [get_fallback_tiers])

/-- Claim C9: the derived status is a total function of the consecutive
failure counter (up exactly at 0, degraded exactly at 1 or 2, down exactly from
3 on), a recorded success resets the counter to exactly 0, a recorded failure
increments it by exactly 1, and after Scenario F (primary fails with HTTP 503,
fallback succeeds) the primary is degraded with one consecutive failure and
the fallback is up with zero. -/
theorem C9_provider_health_contract :
    (∀ h : ProviderHealth,
      (h.status = "up" ↔ h.consecutive_failures = 0) ∧
      (h.status = "degraded" ↔ 1 ≤ h.consecutive_failures ∧ h.consecutive_failures ≤ 2) ∧
      (h.status = "down" ↔ 3 ≤ h.consecutive_failures)) ∧
    (∀ (now : Nat) (hm : List (String × ProviderHealth)) (tier : String),
      (getHealth (record_success now hm tier) tier).consecutive_failures = 0 ∧
      (getHealth (record_success now hm tier) tier).last_success = some now) ∧
    (∀ (now : Nat) (hm : List (String × ProviderHealth)) (tier msg : String),
      (getHealth (record_failure now hm tier msg) tier).consecutive_failures =
        (getHealth hm tier).consecutive_failures + 1) ∧
    ((execute_with_fallback "claude-premium" scenarioF_attempt).1 = .ok 42 ∧
     (getHealth (applyEvents 0 []
        (execute_with_fallback "claude-premium" scenarioF_attempt).2)
        "claude-premium").consecutive_failures = 1 ∧
     (getHealth (applyEvents 0 []
        (execute_with_fallback "claude-premium" scenarioF_attempt).2)
        "claude-premium").status = "degraded" ∧
     (getHealth (applyEvents 0 []
        (execute_with_fallback "claude-premium" scenarioF_attempt).2)
        "openrouter-claude").consecutive_failures = 0 ∧
     (getHealth (applyEvents 0 []
        (execute_with_fallback "claude-premium" scenarioF_attempt).2)
        "openrouter-claude").status = "up") := by
  refine ⟨?_, ?_, ?_, ?_⟩
  · intro h
    refine ⟨?_, ?_, ?_⟩ <;>
      unfold ProviderHealth.status <;>
      split_ifs with h1 h2 <;>
      simp_all <;>
      omega
  · intro now hm tier
    rw [record_success_getHealth]
    exact ⟨rfl, rfl⟩
  · intro now hm tier msg
    rw [record_failure_getHealth]
  · exact ⟨rfl, by decide, by decide, by decide, by decide⟩

/-- Claim C10 (code bug evidence): no chunk is ever forwarded twice.  The
claim asserts crash recovery replays the whole cache including already
forwarded chunks; in fact the `finally` of line 1250 deletes the cache before
the handler of line 1328 runs, so the replay never happens: each of the three
forwarded chunks appears exactly once, followed only by the generic error
chunk, and the recovery body applied to the post-cleanup cache state yields
only that generic chunk. -/
theorem C10_no_duplicate_replay :
    run_completion false max_cache_bytes
        [⟨c10m1, 20, .ok⟩, ⟨c10m2, 20, .ok⟩, ⟨c10m3, 20, .ok⟩]
        (.crash "sdk exploded") =
      { yielded := [.msg c10m1, .msg c10m2, .msg c10m3,
                    .errorDuringExecution "sdk exploded"]
        outcome := .ok
        status := some .failed
        cacheWritten := [.valid c10m1, .valid c10m2, .valid c10m3]
        cacheAtEnd := none
        rateLimitMarked := false } ∧
    (run_completion false max_cache_bytes
        [⟨c10m1, 20, .ok⟩, ⟨c10m2, 20, .ok⟩, ⟨c10m3, 20, .ok⟩]
        (.crash "sdk exploded")).yielded.count (OutChunk.msg c10m1) = 1 ∧
    recoveryYields
        (finallyCleanup (some [.valid c10m1, .valid c10m2, .valid c10m3]))
        "sdk exploded" =
      [.errorDuringExecution "sdk exploded"] := by
  refine ⟨by decide, by decide, by decide⟩

end WFB
